import Mathlib

/-!
Verification of the HBnB application-service core (facade, entity models and
API handlers) of this repository, as a shallow embedding in Lean.

Conventions of the embedding:
* Python runtime values occurring in request payloads are modelled by `PyVal`
  (strings, integers, booleans and `None`; float payloads are not needed by
  any property verified here, and every numeric field is modelled as `Int`).
* Python exceptions are modelled by `PyError` (`ValueError`, `TypeError`,
  `AttributeError`; `NotFoundError` stands for the spec's repository error on
  an absent id).
* `datetime.now()` is modelled by an explicit `now : Nat` parameter and
  `uuid.uuid4()` by an explicit `fresh_id : String` parameter.
* Python dicts (request payloads) are association lists in insertion order,
  `PyDict`; well-formed dicts have pairwise distinct keys.
-/

deriving instance DecidableEq for Except

/-- A Python runtime value as it appears in JSON request payloads. -/
inductive PyVal where
  | str (s : String)
  | int (n : Int)
  | bool (b : Bool)
  | pyNone
deriving DecidableEq

/-- A Python exception raised by the embedded code.  `valueError` and
`typeError` and `attributeError` are the builtin exceptions; `notFoundError`
models the spec's repository behaviour on an absent id (only reachable when a
facade precondition is bypassed). -/
inductive PyError where
  | valueError (msg : String)
  | typeError (msg : String)
  | attributeError (msg : String)
  | notFoundError
deriving DecidableEq

/-- Python truthiness (`if value:`) for the values of `PyVal`. -/
def pyTruthy : PyVal → Bool
  | .str s => s ≠ ""
  | .int n => n ≠ 0
  | .bool b => b
  | .pyNone => false

/-- `isinstance(value, (int, float))` in the numeric setters.  Python `bool`
is a subclass of `int`, so `True`/`False` count as the numbers 1/0.  Floats
are not modelled (no verified property involves a fractional value). -/
def pyToNum : PyVal → Option Int
  | .int n => some n
  | .bool b => some (if b then 1 else 0)
  | _ => none

/-- A Python dict in insertion order (request payload). -/
abbrev PyDict := List (String × PyVal)

/-- `d[k] = v`: replace the value at the first occurrence of `k`, keeping its
position, or append `(k, v)` (Python dict assignment keeps insertion order). -/
def dictSet : PyDict → String → PyVal → PyDict
  | [], k, v => [(k, v)]
  | (k1, v1) :: rest, k, v =>
      if k1 = k then (k1, v) :: rest else (k1, v1) :: dictSet rest k v

/-- `d.pop(k, default)`: remove the entry for `k` (first occurrence). -/
def dictPop : PyDict → String → PyDict
  | [], _ => []
  | (k1, v1) :: rest, k => if k1 = k then rest else (k1, v1) :: dictPop rest k

/-- `d.get(k)` / `d[k]`: the value at the first occurrence of `k`. -/
def dictGet (d : PyDict) (k : String) : Option PyVal :=
  (d.find? (fun kv => kv.1 = k)).map (·.2)

/-- `k in d`. -/
def dictContains (d : PyDict) (k : String) : Bool :=
  d.any (fun kv => kv.1 = k)

/-- Characters stripped by Python `str.strip()` (the ASCII whitespace
characters; the further Unicode whitespace accepted by Python does not occur
in any property verified here). -/
def pyIsSpace (c : Char) : Bool :=
  c = ' ' ∨ c = '\t' ∨ c = '\n' ∨ c = '\r' ∨ c = Char.ofNat 11 ∨ c = Char.ofNat 12

/-- Python `value.strip()`. -/
def pyStrip (s : String) : String :=
  ⟨((s.data.dropWhile pyIsSpace).reverse.dropWhile pyIsSpace).reverse⟩

/-- `BaseModel.validate_string_length(value, field_name, max_length, required=True)`
(src/app/models/base_model.py) fused with the property assignment that every
caller performs on success: rejects `None`/blank strings, rejects strings
longer than `max_length`, and raises `AttributeError` on non-string values
(Python evaluates `value.strip()` on them).  All uses in the source pass
`required=True`. -/
def validate_string_length (v : PyVal) (field_name : String) (max_length : Nat) :
    Except PyError String :=
  match v with
  | .str s =>
      if pyStrip s = "" then
        .error (.valueError (field_name ++ " is required and cannot be empty."))
      else if s.data.length > max_length then
        .error (.valueError (field_name ++ " must not exceed " ++ toString max_length ++ " characters."))
      else .ok s
  | .pyNone => .error (.valueError (field_name ++ " is required and cannot be empty."))
  | .int _ => .error (.attributeError "int object has no attribute strip")
  | .bool _ => .error (.attributeError "bool object has no attribute strip")

/-- `BaseModel.validate_number_range(value, field_name, min_value, max_value)`
(src/app/models/base_model.py); the bounds are modelled as integers. -/
def validate_number_range (value : Int) (field_name : String) (min_value max_value : Int) :
    Except PyError Unit :=
  if value < min_value then
    .error (.valueError (field_name ++ " must be at least " ++ toString min_value ++ "."))
  else if value > max_value then
    .error (.valueError (field_name ++ " must not exceed " ++ toString max_value ++ "."))
  else .ok ()

/-- Character class `[a-zA-Z0-9._%+-]` of the email regex's local part. -/
def isLocalChar (c : Char) : Bool :=
  c.isAlpha ∨ c.isDigit ∨ c = '.' ∨ c = '_' ∨ c = '%' ∨ c = '+' ∨ c = '-'

/-- Character class `[a-zA-Z0-9.-]` of the email regex's domain part. -/
def isDomainChar (c : Char) : Bool :=
  c.isAlpha ∨ c.isDigit ∨ c = '.' ∨ c = '-'

/-- `[a-zA-Z]\x7b2,\x7d$`: the rest of the string is two or more ASCII letters. -/
def emailTld (cs : List Char) : Bool :=
  cs.length ≥ 2 ∧ cs.all Char.isAlpha

/-- Continuation of the domain match after at least one domain character:
either a literal dot followed by the TLD, or one more domain character
(implements the backtracking of `[a-zA-Z0-9.-]+\.[a-zA-Z]\x7b2,\x7d`). -/
def emailDomainTail : List Char → Bool
  | [] => false
  | c :: rest => (c = '.' ∧ emailTld rest) ∨ (isDomainChar c ∧ emailDomainTail rest)

/-- The domain part `[a-zA-Z0-9.-]+\.[a-zA-Z]\x7b2,\x7d` of the email regex. -/
def emailDomain : List Char → Bool
  | [] => false
  | c :: rest => isDomainChar c ∧ emailDomainTail rest

/-- The local part `[a-zA-Z0-9._%+-]+` of the email regex. -/
def emailLocal (cs : List Char) : Bool :=
  (cs.isEmpty = false) ∧ cs.all isLocalChar

/-- Split the characters at the unique `@` (both regex character classes
exclude `@`, so a string with zero or at least two `@` never matches). -/
def emailSplit (acc : List Char) : List Char → Option (List Char × List Char)
  | [] => none
  | '@' :: rest => if rest.contains '@' then none else some (acc.reverse, rest)
  | c :: rest => emailSplit (c :: acc) rest

/-- Python `$` also matches immediately before a single newline that ends the
string, so `re.match` accepts one trailing newline. -/
def dropTrailingNewline (s : String) : List Char :=
  match s.data.reverse with
  | '\n' :: rest => rest.reverse
  | _ => s.data

/-- `BaseModel.validate_email` (src/app/models/base_model.py):
`re.match(r'^[a-zA-Z0-9._%+-]+@[a-zA-Z0-9.-]+\.[a-zA-Z]\x7b2,\x7d$', email) is not None`. -/
def validate_email (email : String) : Bool :=
  match emailSplit [] (dropTrailingNewline email) with
  | some (l, d) => emailLocal l ∧ emailDomain d
  | none => false

/-- The `User` entity (src/app/models/user.py).  `id`, `created_at` and
`updated_at` come from `BaseModel`; `_password` holds the bcrypt digest.
`is_admin` has an unvalidated setter, so it can hold any Python value.
`dyn` models the Python instance dictionary for the `BaseModel.update`
writes that the typed fields cannot represent: method/dunder shadowing,
writes to the datetime attributes, and writes that would change a typed
storage's runtime type (see `userSetattr`); writes to the property backing
names (`_first_name`, ...) of the matching type alias the typed storage
itself, exactly as in Python. -/
structure User where
  id : String
  created_at : Nat
  updated_at : Nat
  first_name : String
  last_name : String
  email : String
  is_admin : PyVal
  _password : Option String
  dyn : PyDict
deriving DecidableEq

/-- The `Amenity` entity (src/app/models/amenity.py). -/
structure Amenity where
  id : String
  created_at : Nat
  updated_at : Nat
  name : String
  dyn : PyDict
deriving DecidableEq

/-- Modelled from the spec: the persisted `Review` row.  The SQLAlchemy
model with `place_id`/`user_id` columns that `ReviewRepository` queries
(`filter_by(place_id=...)`, `filter_by(user_id=...)`) is not under `src/`;
the fields follow spec section 3 and those repository queries.  (The plain
`Review` class under `src/app/models/review.py` stores `place`/`user`
instances instead and is modelled separately by its constructor's parameter
list, `reviewInitParams`.) -/
structure Review where
  id : String
  text : String
  rating : Int
  user_id : String
  place_id : String
deriving DecidableEq

/-- The `Place` entity (src/app/models/place.py).  `description` stores any
truthy value unchanged (its setter is `value if value else ""`), so it is a
`PyVal`; `price`, `latitude` and `longitude` are modelled as integers.
`reviews` is the in-model relationship list initialised to `[]` (unused by
the verified flows, which query `ReviewRepository` instead); `dyn` is as in
`User` (see `placeSetattr` for which writes it records). -/
structure Place where
  id : String
  created_at : Nat
  updated_at : Nat
  title : String
  description : PyVal
  price : Int
  latitude : Int
  longitude : Int
  owner_id : String
  reviews : List Review
  amenities : List Amenity
  dyn : PyDict
deriving DecidableEq

/-- `Place.price` setter: `isinstance` check, then `value <= 0` check. -/
def price_setter (v : PyVal) : Except PyError Int :=
  match pyToNum v with
  | none => .error (.valueError "Price must be a number.")
  | some n => if n ≤ 0 then .error (.valueError "Price must be a positive value.") else .ok n

/-- `Place.latitude` setter: `isinstance` check, then range -90..90. -/
def latitude_setter (v : PyVal) : Except PyError Int :=
  match pyToNum v with
  | none => .error (.valueError "Latitude must be a number.")
  | some n =>
    match validate_number_range n "Latitude" (-90) 90 with
    | .error e => .error e
    | .ok _ => .ok n

/-- `Place.longitude` setter: `isinstance` check, then range -180..180. -/
def longitude_setter (v : PyVal) : Except PyError Int :=
  match pyToNum v with
  | none => .error (.valueError "Longitude must be a number.")
  | some n =>
    match validate_number_range n "Longitude" (-180) 180 with
    | .error e => .error e
    | .ok _ => .ok n

/-- `Place.owner_id` setter: `if not value or not isinstance(value, str)`. -/
def owner_id_setter (v : PyVal) : Except PyError String :=
  match v with
  | .str oid =>
      if oid = "" then .error (.valueError "Owner ID is required and must be a string.")
      else .ok oid
  | _ => .error (.valueError "Owner ID is required and must be a string.")

/-- `Place.description` setter: `value if value else ""` (never fails). -/
def description_setter (v : PyVal) : PyVal :=
  if pyTruthy v then v else .str ""

/-- `User.email` setter: `if not value or not self.validate_email(value)`.
A truthy non-string makes `re.match` raise `TypeError`. -/
def email_setter (v : PyVal) : Except PyError String :=
  match v with
  | .str s =>
      if s = "" then .error (.valueError "Invalid email format.")
      else if validate_email s then .ok s
      else .error (.valueError "Invalid email format.")
  | .pyNone => .error (.valueError "Invalid email format.")
  | .int n =>
      if n = 0 then .error (.valueError "Invalid email format.")
      else .error (.typeError "expected string or bytes-like object")
  | .bool b =>
      if b then .error (.typeError "expected string or bytes-like object")
      else .error (.valueError "Invalid email format.")

/-- Attribute names `hasattr` finds on a `User`: instance attributes,
properties and their backing fields, and the methods of `User`/`BaseModel`.
Names inherited from `object` (dunder names) are over-approximated by the
double-underscore test. -/
def userAttrNames : List String :=
  ["id", "created_at", "updated_at",
   "first_name", "last_name", "email", "is_admin",
   "_first_name", "_last_name", "_email", "_is_admin", "_password",
   "hash_password", "verify_password",
   "save", "update", "validate_email", "validate_string_length", "validate_number_range"]

/-- True when the first two characters are underscores (dunder names from
`object`). -/
def isDunder (k : String) : Bool :=
  match k.data with
  | '_' :: '_' :: _ => true
  | _ => false

/-- `hasattr(user, k)`. -/
def userHasAttr (k : String) : Bool :=
  userAttrNames.contains k ∨ isDunder k

/-- `setattr(user, k, v)` for the existing non-property attribute names of
`User`: the backing names (`_first_name`, `_last_name`, `_email`,
`_is_admin`, `_password`) and the plain attribute `id` overwrite the very
storage the corresponding reads return, bypassing validation — exactly
Python's behaviour under `BaseModel.update`'s `hasattr`/`setattr` loop.
A write that would change a typed storage's runtime type (for instance an
`int` into `_first_name`, whose model type is `String`), every write to
the datetime attributes (`created_at`, `updated_at`, whose values are
abstracted to `Nat`), and a write to a method or dunder name
(instance-dictionary shadowing) is recorded in `dyn`; no verified
statement inspects a field after such a write. -/
def userSetattrPlain (u : User) (k : String) (v : PyVal) : Except PyError User :=
  if k = "_first_name" then
    match v with
    | .str s => .ok { u with first_name := s }
    | _ => .ok { u with dyn := dictSet u.dyn k v }
  else if k = "_last_name" then
    match v with
    | .str s => .ok { u with last_name := s }
    | _ => .ok { u with dyn := dictSet u.dyn k v }
  else if k = "_email" then
    match v with
    | .str s => .ok { u with email := s }
    | _ => .ok { u with dyn := dictSet u.dyn k v }
  else if k = "_is_admin" then .ok { u with is_admin := v }
  else if k = "_password" then
    match v with
    | .str s => .ok { u with _password := some s }
    | .pyNone => .ok { u with _password := none }
    | _ => .ok { u with dyn := dictSet u.dyn k v }
  else if k = "id" then
    match v with
    | .str s => .ok { u with id := s }
    | _ => .ok { u with dyn := dictSet u.dyn k v }
  else .ok { u with dyn := dictSet u.dyn k v }

/-- `setattr(user, k, v)` dispatch on the property names, falling through to
`userSetattrPlain` for every other existing attribute name (see the doc
comment above). -/
def userSetattr (u : User) (k : String) (v : PyVal) : Except PyError User :=
  if k = "first_name" then
    match validate_string_length v "First name" 50 with
    | .error e => .error e
    | .ok s => .ok { u with first_name := s }
  else if k = "last_name" then
    match validate_string_length v "Last name" 50 with
    | .error e => .error e
    | .ok s => .ok { u with last_name := s }
  else if k = "email" then
    match email_setter v with
    | .error e => .error e
    | .ok s => .ok { u with email := s }
  else if k = "is_admin" then .ok { u with is_admin := v }
  else userSetattrPlain u k v

/-- `BaseModel.update` (src/app/models/base_model.py) at the `User` entity:
for each key in insertion order, `if hasattr(self, key): setattr(self, key,
value)`, then `save()` refreshes `updated_at`.  A raising setter aborts the
loop; the first component of the result is the object at that moment, i.e.
earlier writes are kept (no rollback). -/
def User.update (now : Nat) (u : User) : PyDict → User × Option PyError
  | [] => ({ u with updated_at := now }, none)
  | (k, v) :: rest =>
      if userHasAttr k then
        match userSetattr u k v with
        | .ok u1 => User.update now u1 rest
        | .error e => (u, some e)
      else User.update now u rest

/-- Attribute names `hasattr` finds on a `Place` (see `userAttrNames`). -/
def placeAttrNames : List String :=
  ["id", "created_at", "updated_at",
   "title", "description", "price", "latitude", "longitude", "owner_id",
   "reviews", "amenities",
   "_title", "_description", "_price", "_latitude", "_longitude", "_owner_id",
   "add_review", "add_amenity", "remove_amenity",
   "save", "update", "validate_email", "validate_string_length", "validate_number_range"]

/-- `hasattr(place, k)`. -/
def placeHasAttr (k : String) : Bool :=
  placeAttrNames.contains k ∨ isDunder k

/-- `setattr(place, k, v)` for the existing non-property attribute names of
`Place`: the backing names (`_title`,
`_description`, `_price`, `_latitude`, `_longitude`, `_owner_id`) and the
plain attribute `id` overwrite the storage the corresponding reads return,
bypassing validation — exactly Python's behaviour under
`BaseModel.update`'s `hasattr`/`setattr` loop.  As in `userSetattr`, a
type-changing write to a typed storage, a write to the datetime or
relationship-list attributes (`created_at`, `updated_at`, `reviews`,
`amenities` — their values are not `PyVal`-representable), and
method/dunder shadowing are recorded in `dyn`; no verified statement
inspects a field after such a write. -/
def placeSetattrPlain (p : Place) (k : String) (v : PyVal) : Except PyError Place :=
  if k = "_title" then
    match v with
    | .str s => .ok { p with title := s }
    | _ => .ok { p with dyn := dictSet p.dyn k v }
  else if k = "_description" then .ok { p with description := v }
  else if k = "_price" then
    match v with
    | .int n => .ok { p with price := n }
    | _ => .ok { p with dyn := dictSet p.dyn k v }
  else if k = "_latitude" then
    match v with
    | .int n => .ok { p with latitude := n }
    | _ => .ok { p with dyn := dictSet p.dyn k v }
  else if k = "_longitude" then
    match v with
    | .int n => .ok { p with longitude := n }
    | _ => .ok { p with dyn := dictSet p.dyn k v }
  else if k = "_owner_id" then
    match v with
    | .str s => .ok { p with owner_id := s }
    | _ => .ok { p with dyn := dictSet p.dyn k v }
  else if k = "id" then
    match v with
    | .str s => .ok { p with id := s }
    | _ => .ok { p with dyn := dictSet p.dyn k v }
  else .ok { p with dyn := dictSet p.dyn k v }

/-- `setattr(place, k, v)` dispatch on the property names, falling through
to `placeSetattrPlain` for every other existing attribute name (see the doc
comment above). -/
def placeSetattr (p : Place) (k : String) (v : PyVal) : Except PyError Place :=
  if k = "title" then
    match validate_string_length v "Title" 100 with
    | .error e => .error e
    | .ok s => .ok { p with title := s }
  else if k = "description" then .ok { p with description := description_setter v }
  else if k = "price" then
    match price_setter v with
    | .error e => .error e
    | .ok n => .ok { p with price := n }
  else if k = "latitude" then
    match latitude_setter v with
    | .error e => .error e
    | .ok n => .ok { p with latitude := n }
  else if k = "longitude" then
    match longitude_setter v with
    | .error e => .error e
    | .ok n => .ok { p with longitude := n }
  else if k = "owner_id" then
    match owner_id_setter v with
    | .error e => .error e
    | .ok s => .ok { p with owner_id := s }
  else placeSetattrPlain p k v

/-- `BaseModel.update` at the `Place` entity (see `User.update`). -/
def Place.update (now : Nat) (p : Place) : PyDict → Place × Option PyError
  | [] => ({ p with updated_at := now }, none)
  | (k, v) :: rest =>
      if placeHasAttr k then
        match placeSetattr p k v with
        | .ok p1 => Place.update now p1 rest
        | .error e => (p, some e)
      else Place.update now p rest

/-- `User.__init__` (src/app/models/user.py): `BaseModel.__init__` assigns
id and timestamps, then the property setters run in source order.
`password` is handled by the caller (`HBnBFacade.create_user` pops it before
construction and hashes it afterwards). -/
def User.init (fresh_id : String) (now : Nat) (first_name last_name email : String)
    (is_admin : Bool) : Except PyError User :=
  match validate_string_length (.str first_name) "First name" 50 with
  | .error e => .error e
  | .ok fn =>
    match validate_string_length (.str last_name) "Last name" 50 with
    | .error e => .error e
    | .ok ln =>
      match email_setter (.str email) with
      | .error e => .error e
      | .ok em =>
        .ok { id := fresh_id, created_at := now, updated_at := now,
              first_name := fn, last_name := ln, email := em,
              is_admin := .bool is_admin, _password := none, dyn := [] }

/-- `Place.__init__` (src/app/models/place.py): property setters in source
order, then `reviews = []` and `amenities = []`. -/
def Place.init (fresh_id : String) (now : Nat)
    (title description price latitude longitude owner_id : PyVal) :
    Except PyError Place :=
  match validate_string_length title "Title" 100 with
  | .error e => .error e
  | .ok t =>
    match price_setter price with
    | .error e => .error e
    | .ok pr =>
      match latitude_setter latitude with
      | .error e => .error e
      | .ok la =>
        match longitude_setter longitude with
        | .error e => .error e
        | .ok lo =>
          match owner_id_setter owner_id with
          | .error e => .error e
          | .ok ow =>
            .ok { id := fresh_id, created_at := now, updated_at := now,
                  title := t, description := description_setter description,
                  price := pr, latitude := la, longitude := lo, owner_id := ow,
                  reviews := [], amenities := [], dyn := [] }

/-- Parameter names of `Review.__init__` (src/app/models/review.py) besides
`self`: the constructor takes `place` and `user` **instances**, not ids. -/
def reviewInitParams : List String := ["text", "rating", "place", "user"]

/-- Keys of the `review_data` dict that `HBnBFacade.create_review` passes to
`Review(**review_data)`: the validated payload fields plus the `user_id` the
API handler injects. -/
def reviewDataKeys : List String := ["text", "rating", "place_id", "user_id"]

/-- Python keyword-argument binding: calling with `**kwargs` raises
`TypeError` when a keyword is not a parameter name, or when a parameter
without a default is left unbound. -/
def bindReviewInit (kwargs : List String) : Except PyError Unit :=
  match kwargs.find? (fun k => ¬ reviewInitParams.contains k) with
  | some k => .error (.typeError ("Review.__init__() got an unexpected keyword argument " ++ k))
  | none =>
    match reviewInitParams.find? (fun p => ¬ kwargs.contains p) with
    | some p => .error (.typeError ("Review.__init__() missing required argument " ++ p))
    | none => .ok ()

/-- The store shared by the four repositories (`HBnBFacade.__init__` holds
one repository per entity type; spec section 4.3/6).  Lists are in insertion
order, which is the creation order the spec requires for reviews. -/
structure AppState where
  users : List User
  places : List Place
  reviews : List Review
  amenities : List Amenity
deriving DecidableEq

/-- Repository `get(id)` for users (`SQLAlchemyRepository.get` is not under
src/; per spec section 4.3 it returns the entity or a not-found sentinel). -/
def getUser (s : AppState) (uid : String) : Option User :=
  s.users.find? (fun u => u.id = uid)

/-- Repository `get(id)` with an arbitrary Python value as the key: a
non-string key matches no stored id. -/
def getUserByVal (s : AppState) (v : PyVal) : Option User :=
  match v with
  | .str uid => getUser s uid
  | _ => none

/-- `UserRepository.get_user_by_email` (src/app/persistence/user_repository.py):
`query.filter_by(email=email).first()`; an absent (`None`) email matches
nothing. -/
def get_user_by_email (s : AppState) (email : Option String) : Option User :=
  match email with
  | some em => s.users.find? (fun u => u.email = em)
  | none => none

/-- `get_user_by_email` with an arbitrary Python value. -/
def getUserByEmailVal (s : AppState) (v : PyVal) : Option User :=
  match v with
  | .str em => get_user_by_email s (some em)
  | _ => none

/-- Repository `get(id)` for places. -/
def getPlace (s : AppState) (pid : String) : Option Place :=
  s.places.find? (fun p => p.id = pid)

/-- Repository `get(id)` for amenities. -/
def getAmenity (s : AppState) (aid : String) : Option Amenity :=
  s.amenities.find? (fun a => a.id = aid)

/-- `ReviewRepository.get_review_by_user_and_place`
(src/app/persistence/review_repository.py):
`query.filter_by(user_id=user_id, place_id=place_id).first()`. -/
def get_review_by_user_and_place (s : AppState) (user_id place_id : String) : Option Review :=
  s.reviews.find? (fun r => r.user_id = user_id ∧ r.place_id = place_id)

/-- `ReviewRepository.get_reviews_by_place`:
`query.filter_by(place_id=place_id).all()`, in creation order. -/
def ReviewRepository.get_reviews_by_place (s : AppState) (place_id : String) : List Review :=
  s.reviews.filter (fun r => r.place_id = place_id)

/-- Replace the stored user that has the given user's id (Python object
identity: a mutation is visible in the repository immediately; used for the
in-place `hash_password` write of `update_user`, which never changes `id`). -/
def replaceUser (s : AppState) (u : User) : AppState :=
  { s with users := s.users.map (fun q => if q.id = u.id then u else q) }

/-- Modelled from the spec: `SQLAlchemyRepository.update` for users is not
under src/; per spec section 4.3 it applies the partial fields to the stored
entity and fails with the not-found error on an absent id (unreachable here:
every facade caller checks existence first).  The field application itself
is the in-src `BaseModel.update` (`User.update` above); a raising setter
leaves the earlier writes on the stored object.  The store slot that held
the fetched entity now holds the mutated object (Python mutates in place),
even when the update rewrote the object's own `id` attribute. -/
def user_repo_update (now : Nat) (s : AppState) (uid : String) (data : PyDict) :
    Except PyError (Option User) × AppState :=
  match getUser s uid with
  | none => (.error .notFoundError, s)
  | some u =>
    match User.update now u data with
    | (u1, none) =>
        (.ok (some u1),
         { s with users := s.users.map (fun q => if q.id = uid then u1 else q) })
    | (u1, some e) =>
        (.error e,
         { s with users := s.users.map (fun q => if q.id = uid then u1 else q) })

/-- Modelled from the spec: `SQLAlchemyRepository.update` for places (see
`user_repo_update`). -/
def place_repo_update (now : Nat) (s : AppState) (pid : String) (data : PyDict) :
    Except PyError (Option Place) × AppState :=
  match getPlace s pid with
  | none => (.error .notFoundError, s)
  | some p =>
    match Place.update now p data with
    | (p1, none) =>
        (.ok (some p1),
         { s with places := s.places.map (fun q => if q.id = pid then p1 else q) })
    | (p1, some e) =>
        (.error e,
         { s with places := s.places.map (fun q => if q.id = pid then p1 else q) })

/-- Modelled from the spec: `SQLAlchemyRepository.delete` for places is not
under src/.  Per spec sections 3 and 4.4, deleting a place cascades the
deletion of its reviews and detaches (does not delete) its amenities. -/
def place_repo_delete (s : AppState) (pid : String) : AppState :=
  { s with
    places := s.places.filter (fun p => p.id ≠ pid),
    reviews := s.reviews.filter (fun r => r.place_id ≠ pid) }

/-- Modelled from the spec: the password collaborator's
`hash(plaintext) -> digest` (bcrypt is external to the core).  No verified
property depends on the digest's value. -/
def bcrypt_hash (plaintext : String) : String :=
  "$2b$12$" ++ plaintext

/-- `hash_password` applied to an arbitrary dict value (the facade passes
`user_data['password']` straight through). -/
def bcrypt_hash_val (v : PyVal) : String :=
  match v with
  | .str s => bcrypt_hash s
  | .int n => bcrypt_hash (toString n)
  | .bool b => bcrypt_hash (toString b)
  | .pyNone => bcrypt_hash "None"

/-- The registration payload of `POST /api/v1/users/`: the four fields of
`user_input_model` plus the extra `is_admin` key the schema does not
reject (`flask_restx` models are not strict).  A `none` field models an
absent key. -/
structure UserCreateData where
  first_name : Option String
  last_name : Option String
  email : Option String
  password : Option String
  is_admin : Option Bool
deriving DecidableEq

/-- `HBnBFacade.create_user` (src/app/services/facade.py): email-uniqueness
check, `pop('password')`, `User(**user_data)` (binding fails with
`TypeError` when a required parameter is absent), optional hashing, then
`add`.  There is no actor parameter: the operation performs no
authorization check. -/
def HBnBFacade.create_user (fresh_id : String) (now : Nat) (s : AppState)
    (d : UserCreateData) : Except PyError (User × AppState) :=
  match get_user_by_email s d.email with
  | some _ => .error (.valueError "Email already registered")
  | none =>
    match d.first_name, d.last_name, d.email with
    | some fn, some ln, some em =>
      match User.init fresh_id now fn ln em (d.is_admin.getD false) with
      | .error e => .error e
      | .ok u =>
        let u1 :=
          match d.password with
          | some pw => if pw ≠ "" then { u with _password := some (bcrypt_hash pw) } else u
          | none => u
        .ok (u1, { s with users := s.users ++ [u1] })
    | _, _, _ => .error (.typeError "User.__init__() missing required positional argument")

/-- `HBnBFacade.update_user` (src/app/services/facade.py): get the user
(`None` result when absent), email-uniqueness pre-check, hash and strip a
`password` key (the hash is written to the live object before the field
update runs), then `user_repo.update`. -/
def HBnBFacade.update_user (now : Nat) (s : AppState) (user_id : String) (data : PyDict) :
    Except PyError (Option User) × AppState :=
  match getUser s user_id with
  | none => (.ok none, s)
  | some user =>
    let emailConflict :=
      match dictGet data "email" with
      | some ev => if ev ≠ .str user.email then (getUserByEmailVal s ev).isSome else false
      | none => false
    if emailConflict then (.error (.valueError "Email already registered"), s)
    else
      match dictGet data "password" with
      | some pv =>
          let user1 := { user with _password := some (bcrypt_hash_val pv) }
          let s1 := replaceUser s user1
          user_repo_update now s1 user_id (data.filter (fun kv => kv.1 ≠ "password"))
      | none => user_repo_update now s user_id data

/-- The payload of `POST /api/v1/places/` as the facade receives it:
`place_model` fields (with arbitrary Python values) plus the ignored
`amenities` list; `HBnBFacade.create_place` overwrites/reads `owner_id`. -/
structure PlaceCreateData where
  title : Option PyVal
  description : Option PyVal
  price : Option PyVal
  latitude : Option PyVal
  longitude : Option PyVal
  owner_id : Option PyVal
  amenities : Option (List String)
deriving DecidableEq

/-- `HBnBFacade.create_place` (src/app/services/facade.py): validates only
that `owner_id` resolves to an existing user, then
`place_data.pop('amenities', [])` discards the amenities list without
resolving any id, then `Place(**place_data)` (every parameter of
`Place.__init__` is required), then `add`.  The created place's
`amenities` list is the constructor's empty list. -/
def HBnBFacade.create_place (fresh_id : String) (now : Nat) (s : AppState)
    (d : PlaceCreateData) : Except PyError (Place × AppState) :=
  if !(pyTruthy (d.owner_id.getD .pyNone)) ∨ (getUserByVal s (d.owner_id.getD .pyNone)).isNone then
    .error (.valueError "Invalid owner_id")
  else
    match d.title, d.description, d.price, d.latitude, d.longitude, d.owner_id with
    | some t, some de, some pr, some la, some lo, some ow =>
      match Place.init fresh_id now t de pr la lo ow with
      | .error e => .error e
      | .ok p => .ok (p, { s with places := s.places ++ [p] })
    | _, _, _, _, _, _ =>
      .error (.typeError "Place.__init__() missing required positional argument")

/-- `HBnBFacade.update_place` (src/app/services/facade.py): get the place
(`None` when absent), validate a supplied `owner_id` resolves to an
existing user, `pop('amenities')`, then `place_repo.update`. -/
def HBnBFacade.update_place (now : Nat) (s : AppState) (place_id : String) (data : PyDict) :
    Except PyError (Option Place) × AppState :=
  match getPlace s place_id with
  | none => (.ok none, s)
  | some _ =>
    match dictGet data "owner_id" with
    | some ov =>
      match getUserByVal s ov with
      | none => (.error (.valueError "Owner not found"), s)
      | some _ => place_repo_update now s place_id (dictPop data "amenities")
    | none => place_repo_update now s place_id (dictPop data "amenities")

/-- `HBnBFacade.delete_place` (src/app/services/facade.py): `False` when the
place is absent, otherwise `place_repo.delete` and `True`. -/
def HBnBFacade.delete_place (s : AppState) (place_id : String) : Bool × AppState :=
  match getPlace s place_id with
  | none => (false, s)
  | some _ => (true, place_repo_delete s place_id)

/-- `HBnBFacade.create_review` (src/app/services/facade.py): resolves
`user_id` and `place_id`, then calls `Review(**review_data)`.  The binding
of `review_data`'s keys (`reviewDataKeys`) against `Review.__init__`'s
parameters (`reviewInitParams`) raises `TypeError`, so the success branch is
unreachable; its body is the row the surrounding code expects (the
docstring, the repository queries and the handler's serializer all use
`user_id`/`place_id`). -/
def HBnBFacade.create_review (fresh_id : String) (s : AppState)
    (text : String) (rating : Int) (place_id user_id : String) :
    Except PyError (Review × AppState) :=
  match getUser s user_id with
  | none => .error (.valueError "User not found")
  | some _ =>
    match getPlace s place_id with
    | none => .error (.valueError "Place not found")
    | some _ =>
      match bindReviewInit reviewDataKeys with
      | .error e => .error e
      | .ok _ =>
        let r : Review :=
          { id := fresh_id, text := text, rating := rating,
            user_id := user_id, place_id := place_id }
        .ok (r, { s with reviews := s.reviews ++ [r] })

/-- `HBnBFacade.get_reviews_by_place` (src/app/services/facade.py). -/
def HBnBFacade.get_reviews_by_place (s : AppState) (place_id : String) :
    Except PyError (List Review) :=
  match getPlace s place_id with
  | none => .error (.valueError "Place not found")
  | some _ => .ok (ReviewRepository.get_reviews_by_place s place_id)

/-- Outcome of an API handler: a success status, an error response
`(status, message)`, or an exception the handler does not catch (the
handlers catch only `ValueError`). -/
inductive ApiOutcome where
  | ok (status : Nat)
  | err (status : Nat) (msg : String)
  | raised (e : PyError)
deriving DecidableEq

/-- `ReviewList.post` (src/app/api/v1/reviews.py): inject the authenticated
`user_id`, 404 when the place is absent, reject reviewing one's own place,
reject a duplicate review (`get_review_by_user_and_place`), then
`facade.create_review` with `ValueError` mapped to 400.  The payload fields
are typed because `@api.expect(review_model, validate=True)` enforces the
schema. -/
def ReviewList.post (fresh_id : String) (s : AppState) (current_user : String)
    (text : String) (rating : Int) (place_id : String) : ApiOutcome × AppState :=
  match getPlace s place_id with
  | none => (.err 404 "Place not found", s)
  | some place =>
    if place.owner_id = current_user then
      (.err 400 "You cannot review your own place", s)
    else
      match get_review_by_user_and_place s current_user place_id with
      | some _ => (.err 400 "You have already reviewed this place", s)
      | none =>
        match HBnBFacade.create_review fresh_id s text rating place_id current_user with
        | .ok (_, s1) => (.ok 201, s1)
        | .error (.valueError m) => (.err 400 m, s)
        | .error e => (.raised e, s)

/-- `UserList.post` (src/app/api/v1/users.py): the public registration
endpoint.  It has no `@jwt_required` decorator and takes no acting subject:
the payload goes straight to `facade.create_user`. -/
def UserList.post (fresh_id : String) (now : Nat) (s : AppState) (d : UserCreateData) :
    ApiOutcome × AppState :=
  match HBnBFacade.create_user fresh_id now s d with
  | .ok (_, s1) => (.ok 201, s1)
  | .error (.valueError m) => (.err 400 m, s)
  | .error e => (.raised e, s)

/-- `UserResource.put` (src/app/api/v1/users.py): 403 unless the actor is
the target or an admin; non-admins may not send `email` or `password`;
admins get an email-in-use pre-check; then `facade.update_user` with
`ValueError` mapped to 400 and a `None` result to 404. -/
def UserResource.put (now : Nat) (s : AppState) (current_user_id : String)
    (is_admin : Bool) (user_id : String) (payload : PyDict) : ApiOutcome × AppState :=
  if !is_admin ∧ user_id ≠ current_user_id then
    (.err 403 "Unauthorized action", s)
  else if !is_admin ∧ (dictContains payload "email" ∨ dictContains payload "password") then
    (.err 400 "You cannot modify email or password", s)
  else
    let emailInUse :=
      if is_admin then
        match dictGet payload "email" with
        | some ev =>
          match getUserByEmailVal s ev with
          | some existing => existing.id ≠ user_id
          | none => false
        | none => false
      else false
    if emailInUse then (.err 400 "Email already in use", s)
    else
      match HBnBFacade.update_user now s user_id payload with
      | (.ok none, s1) => (.err 404 "User not found", s1)
      | (.ok (some _), s1) => (.ok 200, s1)
      | (.error (.valueError m), s1) => (.err 400 m, s1)
      | (.error e, s1) => (.raised e, s1)

/-- `PlaceResource.put` (src/app/api/v1/places.py): 404 when absent, 403
unless owner or admin, then `place_data['owner_id'] = place.owner_id`
forces the stored owner before `facade.update_place`; `ValueError` maps to
400 and any `ok` result returns 200. -/
def PlaceResource.put (now : Nat) (s : AppState) (current_user_id : String)
    (is_admin : Bool) (place_id : String) (payload : PyDict) : ApiOutcome × AppState :=
  match getPlace s place_id with
  | none => (.err 404 "Place not found", s)
  | some place =>
    if !is_admin ∧ place.owner_id ≠ current_user_id then
      (.err 403 "Unauthorized action", s)
    else
      match HBnBFacade.update_place now s place_id
          (dictSet payload "owner_id" (.str place.owner_id)) with
      | (.ok _, s1) => (.ok 200, s1)
      | (.error (.valueError m), s1) => (.err 400 m, s1)
      | (.error e, s1) => (.raised e, s1)

/-- `PlaceResource.delete` (src/app/api/v1/places.py): 404 when absent, 403
unless owner or admin, then `facade.delete_place` and 200. -/
def PlaceResource.delete (s : AppState) (current_user_id : String) (is_admin : Bool)
    (place_id : String) : ApiOutcome × AppState :=
  match getPlace s place_id with
  | none => (.err 404 "Place not found", s)
  | some place =>
    if !is_admin ∧ place.owner_id ≠ current_user_id then
      (.err 403 "Unauthorized action", s)
    else
      (.ok 200, (HBnBFacade.delete_place s place_id).2)

/-- Fixture: a registered user who owns a place. -/
def aliceU : User :=
  { id := "u-alice", created_at := 0, updated_at := 0,
    first_name := "Alice", last_name := "Smith", email := "alice@example.com",
    is_admin := .bool false, _password := some (bcrypt_hash "alicepw"), dyn := [] }

/-- Fixture: a registered user who does not own the place. -/
def bobU : User :=
  { id := "u-bob", created_at := 0, updated_at := 0,
    first_name := "Bob", last_name := "Jones", email := "bob@example.com",
    is_admin := .bool false, _password := some (bcrypt_hash "bobpw"), dyn := [] }

/-- Fixture: an amenity. -/
def wifiA : Amenity :=
  { id := "a-wifi", created_at := 0, updated_at := 0, name := "Wi-Fi", dyn := [] }

/-- Fixture: a place owned by Alice, associated with the Wi-Fi amenity. -/
def seasideP : Place :=
  { id := "p-1", created_at := 0, updated_at := 0,
    title := "Seaside Cottage", description := .str "By the sea",
    price := 250, latitude := 34, longitude := -118, owner_id := "u-alice",
    reviews := [], amenities := [wifiA], dyn := [] }

/-- Fixture: a stored review of Alice's place by Bob. -/
def bobReview : Review :=
  { id := "r-1", text := "Great stay", rating := 5,
    user_id := "u-bob", place_id := "p-1" }

/-- Fixture: two users, one place, no reviews. -/
def baseState : AppState :=
  { users := [aliceU, bobU], places := [seasideP], reviews := [], amenities := [wifiA] }

/-- Fixture: `baseState` after Bob's review is stored. -/
def reviewedState : AppState :=
  { baseState with reviews := [bobReview] }

/-- Fixture for C4: a state with one user and no amenities at all. -/
def s4 : AppState :=
  { users := [aliceU], places := [], reviews := [], amenities := [] }

/-- Fixture for C4: a valid place payload whose `amenities` list names an id
that resolves to no existing amenity. -/
def d4 : PlaceCreateData :=
  { title := some (.str "Cozy Cabin"), description := some (.str "Snug"),
    price := some (.int 120), latitude := some (.int 45), longitude := some (.int 7),
    owner_id := some (.str "u-alice"), amenities := some ["a-ghost"] }

/-- Fixture for C4: the place that `create_place` builds from `d4`. -/
def p4exp : Place :=
  { id := "p-9", created_at := 2, updated_at := 2,
    title := "Cozy Cabin", description := .str "Snug",
    price := 120, latitude := 45, longitude := 7, owner_id := "u-alice",
    reviews := [], amenities := [], dyn := [] }

/-- Fixture for C4: the state after the `d4` creation. -/
def s4after : AppState :=
  { s4 with places := [p4exp] }

/-- C1: a `create_review` call whose place exists and is owned by the acting
user is rejected with the 400 "cannot review own place" error before any
validation or construction, for every text and rating, and no review is
created (the state is unchanged). -/
theorem create_review_own_place_rejected (fresh_id : String) (s : AppState)
    (current_user text : String) (rating : Int) (place_id : String) (place : Place)
    (hp : getPlace s place_id = some place) (hown : place.owner_id = current_user) :
    ReviewList.post fresh_id s current_user text rating place_id =
      (.err 400 "You cannot review your own place", s) ∧
    (ReviewList.post fresh_id s current_user text rating place_id).2.reviews = s.reviews := by
  unfold ReviewList.post
  rw [hp]
  simp [hown]

/-- Witness for `create_review_own_place_rejected`: Alice attempts to review
her own place. -/
theorem create_review_own_place_rejected_witness :
    ReviewList.post "r-9" baseState "u-alice" "Lovely" 5 "p-1" =
      (.err 400 "You cannot review your own place", baseState) ∧
    (ReviewList.post "r-9" baseState "u-alice" "Lovely" 5 "p-1").2.reviews =
      baseState.reviews :=
  create_review_own_place_rejected "r-9" baseState "u-alice" "Lovely" 5 "p-1" seasideP
    (by decide) (by decide)

/-- C2: when a review by the acting user for the place already exists (and
the user is not the owner, which invariant 4 guarantees for any state in
which that first review was created), a second `create_review` is rejected
with the 400 duplicate error, the state is unchanged, and the place's review
collection is unchanged. -/
theorem create_review_duplicate_rejected (fresh_id : String) (s : AppState)
    (current_user text : String) (rating : Int) (place_id : String)
    (place : Place) (r : Review)
    (hp : getPlace s place_id = some place) (hown : place.owner_id ≠ current_user)
    (hr : get_review_by_user_and_place s current_user place_id = some r) :
    ReviewList.post fresh_id s current_user text rating place_id =
      (.err 400 "You have already reviewed this place", s) ∧
    HBnBFacade.get_reviews_by_place
        (ReviewList.post fresh_id s current_user text rating place_id).2 place_id =
      HBnBFacade.get_reviews_by_place s place_id := by
  unfold ReviewList.post
  rw [hp]
  simp [hown, hr]

/-- Witness for `create_review_duplicate_rejected`: Bob, who already has a
stored review for Alice's place, tries to review it again. -/
theorem create_review_duplicate_rejected_witness :
    ReviewList.post "r-9" reviewedState "u-bob" "Still great" 4 "p-1" =
      (.err 400 "You have already reviewed this place", reviewedState) ∧
    HBnBFacade.get_reviews_by_place
        (ReviewList.post "r-9" reviewedState "u-bob" "Still great" 4 "p-1").2 "p-1" =
      HBnBFacade.get_reviews_by_place reviewedState "p-1" :=
  create_review_duplicate_rejected "r-9" reviewedState "u-bob" "Still great" 4 "p-1"
    seasideP bobReview (by decide) (by decide) (by decide)

/-- C3 (code bug): a fully valid review creation crashes.  Bob (registered,
not the owner, no prior review) posts a valid review for Alice's existing
place; `HBnBFacade.create_review` reaches `Review(**review_data)`, whose
keyword binding raises `TypeError` (the in-src `Review.__init__` takes
`place`/`user` instances, not `place_id`/`user_id`), the handler catches
only `ValueError`, so the exception escapes, no review is persisted, and
the place's review collection stays empty — the spec says the review is
constructed, persisted and becomes visible under the place. -/
theorem create_review_valid_input_crashes :
    ReviewList.post "r-9" baseState "u-bob" "Great stay" 5 "p-1" =
      (.raised (.typeError "Review.__init__() got an unexpected keyword argument place_id"),
       baseState) ∧
    HBnBFacade.get_reviews_by_place baseState "p-1" = .ok [] := by decide

/-- `HBnBFacade.create_place` never reads the `amenities` field of its
input (`place_data.pop('amenities', [])` discards it before construction). -/
theorem create_place_amenities_irrelevant (fresh_id : String) (now : Nat)
    (s : AppState) (d : PlaceCreateData) (am : Option (List String)) :
    HBnBFacade.create_place fresh_id now s { d with amenities := am } =
      HBnBFacade.create_place fresh_id now s d := by
  cases d
  rfl

/-- A successfully constructed `Place` has an empty amenity list. -/
theorem Place.init_amenities (fresh_id : String) (now : Nat)
    (title description price latitude longitude owner_id : PyVal) (p : Place)
    (h : Place.init fresh_id now title description price latitude longitude owner_id = .ok p) :
    p.amenities = [] := by
  unfold Place.init at h
  split at h
  · cases h
  · split at h
    · cases h
    · split at h
      · cases h
      · split at h
        · cases h
        · split at h
          · cases h
          · cases h
            rfl

/-- C4 counterexample: `"a-ghost"` resolves to no existing amenity, yet
`create_place` succeeds instead of failing with a `ValidationError` naming
the missing id, and the created place's amenity set is empty, not the
resolved list. -/
theorem create_place_missing_amenity_not_rejected :
    getAmenity s4 "a-ghost" = none ∧
    ((HBnBFacade.create_place "p-9" 2 s4 d4).toOption.map (fun pr => pr.1.amenities)) =
      some [] := by decide

/-- C4 amended: `create_place` ignores the supplied amenities list entirely —
the call's result does not depend on it, no amenity id is resolved or
validated, and on success the created place's amenity association set is
empty. -/
theorem create_place_ignores_amenities (fresh_id : String) (now : Nat)
    (s : AppState) (d : PlaceCreateData) (p : Place) (s1 : AppState)
    (h : HBnBFacade.create_place fresh_id now s d = .ok (p, s1)) :
    p.amenities = [] ∧
    ∀ am, HBnBFacade.create_place fresh_id now s { d with amenities := am } = .ok (p, s1) := by
  refine ⟨?_, fun am => (create_place_amenities_irrelevant fresh_id now s d am).trans h⟩
  unfold HBnBFacade.create_place at h
  split at h
  · cases h
  · split at h
    · split at h
      · cases h
      · rename_i q hq
        cases h
        exact Place.init_amenities _ _ _ _ _ _ _ _ _ hq
    · cases h

/-- Witness for `create_place_ignores_amenities`: the concrete C4 call gives
the same created place and state with the amenities key removed, and that
place's amenity set is empty. -/
theorem create_place_ignores_amenities_witness :
    HBnBFacade.create_place "p-9" 2 s4 { d4 with amenities := none } = .ok (p4exp, s4after) ∧
    p4exp.amenities = [] := by
  have h := create_place_ignores_amenities "p-9" 2 s4 d4 p4exp s4after (by decide)
  exact ⟨h.2 none, h.1⟩

/-- A successful plain-attribute `setattr` on a place changes `id` only
through the key `"id"` itself (the direct write of the primary key). -/
theorem placeSetattrPlain_ok_id (p : Place) (k : String) (v : PyVal) (p1 : Place)
    (h : placeSetattrPlain p k v = .ok p1) (hk : k ≠ "id") : p1.id = p.id := by
  unfold placeSetattrPlain at h
  split_ifs at h
  all_goals try split at h
  all_goals (cases h; rfl)

/-- A successful plain-attribute `setattr` on a place keeps `owner_id`
unless the key is the direct-write backing name `"_owner_id"`. -/
theorem placeSetattrPlain_ok_owner (p : Place) (k : String) (v : PyVal) (p1 : Place)
    (h : placeSetattrPlain p k v = .ok p1) (hk2 : k ≠ "_owner_id") :
    p1.owner_id = p.owner_id := by
  unfold placeSetattrPlain at h
  split_ifs at h
  all_goals try split at h
  all_goals (cases h; rfl)

/-- A successful `setattr` on a place changes `id` only through the key
`"id"` itself (the plain-attribute write of the primary key). -/
theorem placeSetattr_ok_id (p : Place) (k : String) (v : PyVal) (p1 : Place)
    (h : placeSetattr p k v = .ok p1) (hk : k ≠ "id") : p1.id = p.id := by
  unfold placeSetattr at h
  split_ifs at h
  all_goals try split at h
  all_goals first
    | (cases h; rfl)
    | (exact placeSetattrPlain_ok_id p k v p1 h hk)
    | cases h

/-- A successful `setattr` on a place keeps `owner_id` whenever the key is
neither the backing attribute `"_owner_id"` (whose write is direct and
unvalidated) nor `"owner_id"` carrying a value other than the current
owner id. -/
theorem placeSetattr_ok_owner (p : Place) (k : String) (v : PyVal) (p1 : Place)
    (h : placeSetattr p k v = .ok p1)
    (hv : k = "owner_id" → v = PyVal.str p.owner_id)
    (hk2 : k ≠ "_owner_id") :
    p1.owner_id = p.owner_id := by
  by_cases hko : k = "owner_id"
  · subst hko
    rw [hv rfl] at h
    unfold placeSetattr at h
    simp only [String.reduceEq, if_false, if_true, reduceIte] at h
    unfold owner_id_setter at h
    split at h
    · cases h
    · rename_i s1 heq
      cases h
      simp only [] at heq
      split at heq
      · cases heq
      · cases heq
        rfl
  · unfold placeSetattr at h
    split_ifs at h
    all_goals try split at h
    all_goals first
      | (cases h; rfl)
      | (exact placeSetattrPlain_ok_owner p k v p1 h hk2)
      | (exact absurd (by assumption) hko)
      | cases h

/-- `BaseModel.update` at a place keeps `owner_id` and `id` whenever every
`owner_id` entry of the dict carries the place's current owner id and no
entry names the direct-write attributes `"_owner_id"` or `"id"` — in both
the completed and the mid-loop-raise outcomes. -/
theorem Place.update_keeps_owner (now : Nat) (data : PyDict) : ∀ (p : Place),
    (∀ v, ("owner_id", v) ∈ data → v = PyVal.str p.owner_id) →
    (∀ kv ∈ data, kv.1 ≠ "_owner_id" ∧ kv.1 ≠ "id") →
    (Place.update now p data).1.owner_id = p.owner_id ∧
      (Place.update now p data).1.id = p.id := by
  induction data with
  | nil => exact fun p _ _ => ⟨rfl, rfl⟩
  | cons kv rest ih =>
    intro p hv hsafe
    obtain ⟨k, v⟩ := kv
    have hno : k ≠ "_owner_id" ∧ k ≠ "id" := hsafe (k, v) (List.mem_cons_self _ _)
    simp only [Place.update]
    by_cases hk : placeHasAttr k = true
    · rw [if_pos hk]
      cases hs : placeSetattr p k v with
      | error e => exact ⟨rfl, rfl⟩
      | ok p1 =>
        have hid := placeSetattr_ok_id p k v p1 hs hno.2
        have how := placeSetattr_ok_owner p k v p1 hs
          (fun hk0 => hv v (by rw [hk0]; exact List.mem_cons_self _ _)) hno.1
        have hrest := ih p1
          (fun v1 hm => (hv v1 (List.mem_cons_of_mem _ hm)).trans (by rw [how]))
          (fun kv2 hm => hsafe kv2 (List.mem_cons_of_mem _ hm))
        exact ⟨hrest.1.trans how, hrest.2.trans hid⟩
    · rw [if_neg hk]
      exact ih p (fun v1 hm => hv v1 (List.mem_cons_of_mem _ hm))
        (fun kv2 hm => hsafe kv2 (List.mem_cons_of_mem _ hm))

/-- Membership after `pop` implies membership before. -/
theorem mem_dictPop (d : PyDict) (k j : String) (v : PyVal)
    (h : (j, v) ∈ dictPop d k) : (j, v) ∈ d := by
  induction d with
  | nil => exact absurd h (by simp [dictPop])
  | cons kv rest ih =>
    obtain ⟨k1, v1⟩ := kv
    unfold dictPop at h
    by_cases hk : k1 = k
    · rw [if_pos hk] at h
      exact List.mem_cons_of_mem _ h
    · rw [if_neg hk] at h
      rcases List.mem_cons.mp h with h1 | h1
      · exact List.mem_cons.mpr (Or.inl h1)
      · exact List.mem_cons_of_mem _ (ih h1)

/-- In a dict with pairwise distinct keys, the entry at key `k` after
`d[k] = x` carries the value `x`. -/
theorem mem_dictSet_val (d : PyDict) (k : String) (x v : PyVal)
    (hnd : (d.map Prod.fst).Nodup) (h : (k, v) ∈ dictSet d k x) : v = x := by
  induction d with
  | nil =>
    simp only [dictSet, List.mem_singleton, Prod.mk.injEq] at h
    exact h.2
  | cons kv rest ih =>
    obtain ⟨k1, v1⟩ := kv
    simp only [List.map_cons, List.nodup_cons] at hnd
    unfold dictSet at h
    by_cases hk : k1 = k
    · rw [if_pos hk] at h
      rcases List.mem_cons.mp h with h1 | h1
      · exact (Prod.mk.injEq _ _ _ _ ▸ h1).2
      · exact absurd (hk ▸ List.mem_map_of_mem Prod.fst h1) hnd.1
    · rw [if_neg hk] at h
      rcases List.mem_cons.mp h with h1 | h1
      · exact absurd ((Prod.mk.injEq _ _ _ _ ▸ h1).1.symm) hk
      · exact ih hnd.2 h1

/-- After `d[k] = x`, looking up `k` yields `x`. -/
theorem dictGet_dictSet (d : PyDict) (k : String) (x : PyVal) :
    dictGet (dictSet d k x) k = some x := by
  induction d with
  | nil => simp [dictSet, dictGet]
  | cons kv rest ih =>
    obtain ⟨k1, v1⟩ := kv
    unfold dictSet
    by_cases hk : k1 = k
    · rw [if_pos hk]
      simp [dictGet, hk]
    · rw [if_neg hk]
      unfold dictGet at ih ⊢
      rw [List.find?_cons_of_neg _ (by simpa using hk)]
      exact ih

/-- Membership after dict assignment: an entry either has the assigned key
or was already present. -/
theorem mem_dictSet (d : PyDict) (k : String) (x : PyVal) (kv : String × PyVal)
    (h : kv ∈ dictSet d k x) : kv.1 = k ∨ kv ∈ d := by
  induction d with
  | nil =>
    simp only [dictSet, List.mem_singleton] at h
    exact Or.inl (by rw [h])
  | cons kv1 rest ih =>
    obtain ⟨k1, v1⟩ := kv1
    unfold dictSet at h
    by_cases hk : k1 = k
    · rw [if_pos hk] at h
      rcases List.mem_cons.mp h with h1 | h1
      · exact Or.inl (by rw [h1]; exact hk)
      · exact Or.inr (List.mem_cons_of_mem _ h1)
    · rw [if_neg hk] at h
      rcases List.mem_cons.mp h with h1 | h1
      · exact Or.inr (List.mem_cons.mpr (Or.inl h1))
      · rcases ih h1 with h2 | h2
        · exact Or.inl h2
        · exact Or.inr (List.mem_cons_of_mem _ h2)

/-- Replacing the store slot whose entity carries the queried id makes the
next `get` under that id return the replacement, provided the replacement
still bears the id. -/
theorem find_replace_at (l : List Place) (pid : String) (place p1 : Place)
    (h : l.find? (fun p => p.id = pid) = some place) (hid : p1.id = pid) :
    (l.map (fun q => if q.id = pid then p1 else q)).find? (fun p => p.id = pid) =
      some p1 := by
  induction l with
  | nil => simp at h
  | cons q rest ih =>
    by_cases hq : q.id = pid
    · simp only [List.map_cons, if_pos hq]
      rw [List.find?_cons_of_pos _ (by simp [hid])]
    · rw [List.find?_cons_of_neg _ (by simp [hq])] at h
      simp only [List.map_cons, if_neg hq]
      rw [List.find?_cons_of_neg _ (by simp [hq])]
      exact ih h

/-- A successful repository `get` returns an entity bearing the queried id. -/
theorem getPlace_some_id (s : AppState) (pid : String) (place : Place)
    (h : getPlace s pid = some place) : place.id = pid := by
  unfold getPlace at h
  have h2 := List.find?_some h
  simp at h2
  exact h2

/-- C5 counterexample: the claim fails as stated.  Alice's place is owned
by `"u-alice"`; a PUT whose payload smuggles the private backing key
`"_owner_id"` alongside `"owner_id"` passes the handler's
`place_data['owner_id'] = place.owner_id` overwrite (which fixes only the
`owner_id` entry), reaches `BaseModel.update`'s `hasattr`/`setattr` loop —
`hasattr(place, "_owner_id")` is true — and the direct, unvalidated write
to the property's storage changes the stored owner to `"u-mallory"` while
the call returns 200. -/
theorem update_place_backdoor_changes_owner :
    (getPlace baseState "p-1").map (fun p => p.owner_id) = some "u-alice" ∧
    (PlaceResource.put 3 baseState "u-alice" false "p-1"
        [("owner_id", PyVal.str "u-mallory"), ("_owner_id", PyVal.str "u-mallory")]).1 =
      .ok 200 ∧
    (getPlace (PlaceResource.put 3 baseState "u-alice" false "p-1"
        [("owner_id", PyVal.str "u-mallory"), ("_owner_id", PyVal.str "u-mallory")]).2
        "p-1").map (fun p => p.owner_id) = some "u-mallory" := by decide

/-- C5 amended: a `PUT /api/v1/places/&lt;id&gt;` call on an existing place never
changes the place's `owner_id` as long as the payload does not name the
direct-write attributes `"_owner_id"` (the property's private storage,
which `BaseModel.update`'s `hasattr`/`setattr` loop overwrites without
validation, bypassing the handler's owner overwrite) or `"id"` (the
primary key, whose rewrite re-keys the entity so it is no longer
addressable under its original id).  Under that restriction the claim
holds for every payload — in particular one containing an `owner_id` key
with any value — because the handler overwrites the `owner_id` entry with
the stored owner before calling `facade.update_place`, and every failure
branch leaves the place as it was.  The payload is an arbitrary dict
(pairwise distinct keys, as in any Python dict). -/
theorem update_place_preserves_owner (now : Nat) (s : AppState)
    (current_user_id : String) (is_admin : Bool) (place_id : String)
    (payload : PyDict) (place : Place)
    (hp : getPlace s place_id = some place)
    (hnd : (payload.map Prod.fst).Nodup)
    (hsafe : ∀ kv ∈ payload, kv.1 ≠ "_owner_id" ∧ kv.1 ≠ "id") :
    ∃ place1,
      getPlace (PlaceResource.put now s current_user_id is_admin place_id payload).2
          place_id = some place1 ∧
      place1.owner_id = place.owner_id := by
  unfold PlaceResource.put
  simp only [hp]
  split
  · exact ⟨place, hp, rfl⟩
  · unfold HBnBFacade.update_place
    simp only [hp, dictGet_dictSet]
    cases hu : getUserByVal s (PyVal.str place.owner_id) with
    | none => exact ⟨place, hp, rfl⟩
    | some _ =>
      unfold place_repo_update
      simp only [hp]
      have hcond : ∀ v,
          ("owner_id", v) ∈
            dictPop (dictSet payload "owner_id" (PyVal.str place.owner_id)) "amenities" →
          v = PyVal.str place.owner_id :=
        fun v hm => mem_dictSet_val payload "owner_id" _ v hnd (mem_dictPop _ _ _ _ hm)
      have hsafe1 : ∀ kv ∈
          dictPop (dictSet payload "owner_id" (PyVal.str place.owner_id)) "amenities",
          kv.1 ≠ "_owner_id" ∧ kv.1 ≠ "id" := by
        intro kv hm
        obtain ⟨j, w⟩ := kv
        have hm2 : (j, w) ∈ dictSet payload "owner_id" (PyVal.str place.owner_id) :=
          mem_dictPop _ _ _ _ hm
        rcases mem_dictSet payload "owner_id" (PyVal.str place.owner_id) (j, w) hm2
          with h1 | h1
        · have h1' : j = "owner_id" := h1
          constructor
          · show j ≠ "_owner_id"
            rw [h1']
            decide
          · show j ≠ "id"
            rw [h1']
            decide
        · exact hsafe (j, w) h1
      have hpres := Place.update_keeps_owner now
        (dictPop (dictSet payload "owner_id" (PyVal.str place.owner_id)) "amenities")
        place hcond hsafe1
      cases hupd : Place.update now place
          (dictPop (dictSet payload "owner_id" (PyVal.str place.owner_id)) "amenities") with
      | mk p1 oe =>
        rw [hupd] at hpres
        have hget : (s.places.map (fun q => if q.id = place_id then p1 else q)).find?
            (fun p => p.id = place_id) = some p1 :=
          find_replace_at s.places place_id place p1 hp
            (hpres.2.trans (getPlace_some_id s place_id place hp))
        cases oe with
        | none => exact ⟨p1, hget, hpres.1⟩
        | some e =>
          cases e with
          | valueError m => exact ⟨p1, hget, hpres.1⟩
          | typeError m => exact ⟨p1, hget, hpres.1⟩
          | attributeError m => exact ⟨p1, hget, hpres.1⟩
          | notFoundError => exact ⟨p1, hget, hpres.1⟩

/-- Witness for `update_place_preserves_owner`: Alice updates her place with
a payload that smuggles in a different `owner_id` (but no direct-write
key); the stored owner stays `"u-alice"`. -/
theorem update_place_preserves_owner_witness :
    (getPlace (PlaceResource.put 3 baseState "u-alice" false "p-1"
        [("title", PyVal.str "New Title"), ("owner_id", PyVal.str "u-mallory")]).2
        "p-1").map (fun p => p.owner_id) = some "u-alice" := by
  obtain ⟨p1, h1, h2⟩ := update_place_preserves_owner 3 baseState "u-alice" false "p-1"
    [("title", PyVal.str "New Title"), ("owner_id", PyVal.str "u-mallory")] seasideP
    (by decide) (by decide) (by decide)
  rw [h1]
  simp only [Option.map]
  rw [h2]
  rfl

/-- Entities surviving a filter on a different id are never the queried one. -/
theorem find_filter_ne (l : List Place) (pid : String) :
    (l.filter (fun p => p.id ≠ pid)).find? (fun p => p.id = pid) = none := by
  rw [List.find?_eq_none]
  intro p hp
  simp only [List.mem_filter] at hp
  simp only [decide_eq_true_eq]
  simpa using hp.2

/-- C6: `delete_place` on an existing place reports success, removes the
place, removes exactly the reviews whose `place_id` referenced it (the
spec's cascade contract), and leaves the amenity store untouched, so every
amenity that was associated with the place still exists. -/
theorem delete_place_cascades (s : AppState) (place_id : String) (place : Place)
    (hp : getPlace s place_id = some place) :
    (HBnBFacade.delete_place s place_id).1 = true ∧
    getPlace (HBnBFacade.delete_place s place_id).2 place_id = none ∧
    (HBnBFacade.delete_place s place_id).2.reviews =
      s.reviews.filter (fun r => r.place_id ≠ place_id) ∧
    (∀ r ∈ (HBnBFacade.delete_place s place_id).2.reviews, r.place_id ≠ place_id) ∧
    (HBnBFacade.delete_place s place_id).2.amenities = s.amenities ∧
    (∀ a ∈ place.amenities,
      getAmenity (HBnBFacade.delete_place s place_id).2 a.id = getAmenity s a.id) := by
  have hd : HBnBFacade.delete_place s place_id = (true, place_repo_delete s place_id) := by
    unfold HBnBFacade.delete_place
    rw [hp]
  rw [hd]
  refine ⟨rfl, ?_, rfl, ?_, rfl, fun a _ => rfl⟩
  · unfold getPlace place_repo_delete
    exact find_filter_ne s.places place_id
  · intro r hr
    unfold place_repo_delete at hr
    simp only [List.mem_filter] at hr
    simpa using hr.2

/-- Witness for `delete_place_cascades`: deleting Alice's place removes it
and Bob's review but keeps the Wi-Fi amenity. -/
theorem delete_place_cascades_witness :
    (HBnBFacade.delete_place reviewedState "p-1").1 = true ∧
    getPlace (HBnBFacade.delete_place reviewedState "p-1").2 "p-1" = none ∧
    (HBnBFacade.delete_place reviewedState "p-1").2.reviews =
      reviewedState.reviews.filter (fun r => r.place_id ≠ "p-1") ∧
    (∀ r ∈ (HBnBFacade.delete_place reviewedState "p-1").2.reviews, r.place_id ≠ "p-1") ∧
    (HBnBFacade.delete_place reviewedState "p-1").2.amenities = reviewedState.amenities ∧
    (∀ a ∈ seasideP.amenities,
      getAmenity (HBnBFacade.delete_place reviewedState "p-1").2 a.id =
        getAmenity reviewedState a.id) :=
  delete_place_cascades reviewedState "p-1" seasideP (by decide)

/-- C7: for an existing target user, `PUT /api/v1/users/&lt;id&gt;` (a) rejects a
non-admin actor different from the target with 403 before touching any
state, and (b) rejects a non-admin actor equal to the target with 400
whenever the payload carries an `email` or `password` key — in both cases
the target user is unchanged. -/
theorem update_user_authorization (now : Nat) (s : AppState)
    (current_user_id : String) (is_admin : Bool) (user_id : String)
    (payload : PyDict) (target : User)
    (ht : getUser s user_id = some target) :
    (is_admin = false → user_id ≠ current_user_id →
      UserResource.put now s current_user_id is_admin user_id payload =
        (.err 403 "Unauthorized action", s) ∧
      getUser (UserResource.put now s current_user_id is_admin user_id payload).2
          user_id = some target) ∧
    (is_admin = false → user_id = current_user_id →
      (dictContains payload "email" ∨ dictContains payload "password") →
      UserResource.put now s current_user_id is_admin user_id payload =
        (.err 400 "You cannot modify email or password", s) ∧
      getUser (UserResource.put now s current_user_id is_admin user_id payload).2
          user_id = some target) := by
  constructor
  · intro hadm hne
    have hres : UserResource.put now s current_user_id is_admin user_id payload =
        (.err 403 "Unauthorized action", s) := by
      unfold UserResource.put
      rw [if_pos (by simp [hadm, hne])]
    exact ⟨hres, by rw [hres]; exact ht⟩
  · intro hadm heq hkeys
    have hres : UserResource.put now s current_user_id is_admin user_id payload =
        (.err 400 "You cannot modify email or password", s) := by
      unfold UserResource.put
      rw [if_neg (by simp [heq]), if_pos (by simp [hadm, hkeys])]
    exact ⟨hres, by rw [hres]; exact ht⟩

/-- Witness for `update_user_authorization`: Bob cannot update Alice (403),
and Alice cannot change her own email (400); Alice's record is unchanged
both times. -/
theorem update_user_authorization_witness :
    (UserResource.put 4 baseState "u-bob" false "u-alice" [] =
        (.err 403 "Unauthorized action", baseState) ∧
      getUser (UserResource.put 4 baseState "u-bob" false "u-alice" []).2 "u-alice" =
        some aliceU) ∧
    (UserResource.put 4 baseState "u-alice" false "u-alice"
          [("email", PyVal.str "new@example.com")] =
        (.err 400 "You cannot modify email or password", baseState) ∧
      getUser (UserResource.put 4 baseState "u-alice" false "u-alice"
          [("email", PyVal.str "new@example.com")]).2 "u-alice" = some aliceU) :=
  ⟨(update_user_authorization 4 baseState "u-bob" false "u-alice" [] aliceU
      (by decide)).1 rfl (by decide),
   (update_user_authorization 4 baseState "u-alice" false "u-alice"
      [("email", PyVal.str "new@example.com")] aliceU (by decide)).2 rfl rfl
      (Or.inl (by decide))⟩

/-- C8 counterexample: updating Alice with
`{"first_name": "Alicia", "last_name": " "}` raises the last-name
`ValueError`, yet the stored user's `first_name` — listed before the
invalid field — has already been changed from `"Alice"` to `"Alicia"`:
the failed update performs a partial write. -/
theorem update_user_partial_write_observed :
    (HBnBFacade.update_user 7 baseState "u-alice"
        [("first_name", PyVal.str "Alicia"), ("last_name", PyVal.str " ")]).1 =
      .error (.valueError "Last name is required and cannot be empty.") ∧
    (getUser baseState "u-alice").map (fun u => u.first_name) = some "Alice" ∧
    (getUser (HBnBFacade.update_user 7 baseState "u-alice"
        [("first_name", PyVal.str "Alicia"), ("last_name", PyVal.str " ")]).2
        "u-alice").map (fun u => u.first_name) = some "Alicia" := by decide

/-- C8 amended: a partial-fields update with an invalid later field fails
with the entity's `ValueError`, but the write is not atomic: a valid field
listed before the invalid one holds its new value when the error is raised,
and only `updated_at` and the fields at or after the failing key keep their
pre-call values. -/
theorem update_partial_write (now : Nat) (u : User) (fn : String)
    (h1 : pyStrip fn ≠ "") (h2 : fn.data.length ≤ 50) :
    User.update now u [("first_name", PyVal.str fn), ("last_name", PyVal.str "")] =
      ({ u with first_name := fn },
       some (.valueError "Last name is required and cannot be empty.")) := by
  have hval : validate_string_length (.str fn) "First name" 50 = .ok fn := by
    simp only [validate_string_length]
    rw [if_neg h1, if_neg (by omega : ¬ (fn.data.length > 50))]
  have hset : userSetattr u "first_name" (PyVal.str fn) = .ok { u with first_name := fn } := by
    simp only [userSetattr, String.reduceEq, reduceIte, hval]
  have hval2 : validate_string_length (PyVal.str "") "Last name" 50 =
      .error (.valueError "Last name is required and cannot be empty.") := by decide
  have hset2 : userSetattr { u with first_name := fn } "last_name" (PyVal.str "") =
      .error (.valueError "Last name is required and cannot be empty.") := by
    simp only [userSetattr, String.reduceEq, reduceIte, hval2]
  have hha1 : userHasAttr "first_name" = true := by decide
  have hha2 : userHasAttr "last_name" = true := by decide
  simp only [User.update, hha1, if_true, hset]
  simp only [User.update, hha2, if_true, hset2]

/-- Witness for `update_partial_write`: the concrete partial write on Alice. -/
theorem update_partial_write_witness :
    User.update 7 aliceU [("first_name", PyVal.str "Alicia"), ("last_name", PyVal.str "")] =
      ({ aliceU with first_name := "Alicia" },
       some (.valueError "Last name is required and cannot be empty.")) :=
  update_partial_write 7 aliceU "Alicia" (by decide) (by decide)

/-- C9: any valid registration payload with an unregistered email and
`is_admin: true` makes the public, unauthenticated `create_user` path
succeed and store a user whose `is_admin` is `True` — there is no
authorization check anywhere on this path (`UserList.post` has no
`@jwt_required` and `HBnBFacade.create_user` takes no actor). -/
theorem create_user_grants_admin (fresh_id : String) (now : Nat) (s : AppState)
    (d : UserCreateData) (fn ln em pw : String)
    (hfn : d.first_name = some fn) (hfn1 : pyStrip fn ≠ "") (hfn2 : fn.data.length ≤ 50)
    (hln : d.last_name = some ln) (hln1 : pyStrip ln ≠ "") (hln2 : ln.data.length ≤ 50)
    (hem : d.email = some em) (hemv : validate_email em = true)
    (hreg : get_user_by_email s (some em) = none)
    (hadm : d.is_admin = some true)
    (hpw : d.password = some pw) (hpw1 : pw ≠ "") :
    ∃ u s1, HBnBFacade.create_user fresh_id now s d = .ok (u, s1) ∧
      u.is_admin = PyVal.bool true ∧
      UserList.post fresh_id now s d = (.ok 201, s1) := by
  have hene : ¬ (em = "") := by
    intro he
    rw [he] at hemv
    exact absurd hemv (by decide)
  have hval_fn : validate_string_length (.str fn) "First name" 50 = .ok fn := by
    simp only [validate_string_length]
    rw [if_neg hfn1, if_neg (by omega : ¬ (fn.data.length > 50))]
  have hval_ln : validate_string_length (.str ln) "Last name" 50 = .ok ln := by
    simp only [validate_string_length]
    rw [if_neg hln1, if_neg (by omega : ¬ (ln.data.length > 50))]
  have hem_ok : email_setter (.str em) = .ok em := by
    simp only [email_setter]
    rw [if_neg hene, if_pos hemv]
  have hinit : User.init fresh_id now fn ln em true =
      .ok { id := fresh_id, created_at := now, updated_at := now,
            first_name := fn, last_name := ln, email := em,
            is_admin := .bool true, _password := none, dyn := [] } := by
    simp only [User.init, hval_fn, hval_ln, hem_ok]
  have hcu : HBnBFacade.create_user fresh_id now s d =
      .ok ({ id := fresh_id, created_at := now, updated_at := now,
             first_name := fn, last_name := ln, email := em,
             is_admin := .bool true, _password := some (bcrypt_hash pw), dyn := [] },
           { s with users := s.users ++
               [{ id := fresh_id, created_at := now, updated_at := now,
                  first_name := fn, last_name := ln, email := em,
                  is_admin := .bool true, _password := some (bcrypt_hash pw), dyn := [] }] }) := by
    unfold HBnBFacade.create_user
    rw [hem, hreg]
    simp only [hfn, hln, hadm, hpw, Option.getD, hinit, if_pos hpw1]
  exact ⟨_, _, hcu, rfl, by unfold UserList.post; rw [hcu]⟩

/-- Witness for `create_user_grants_admin`: Mallory self-registers with
`is_admin: true` and the stored account is an admin. -/
theorem create_user_grants_admin_witness :
    ((HBnBFacade.create_user "u-mallory" 5 baseState
        { first_name := some "Mallory", last_name := some "Marsh",
          email := some "mallory@example.com", password := some "pw123",
          is_admin := some true }).toOption.map (fun pr => pr.1.is_admin)) =
      some (PyVal.bool true) ∧
    (UserList.post "u-mallory" 5 baseState
        { first_name := some "Mallory", last_name := some "Marsh",
          email := some "mallory@example.com", password := some "pw123",
          is_admin := some true }).1 = .ok 201 := by
  obtain ⟨u, s1, h1, h2, h3⟩ := create_user_grants_admin "u-mallory" 5 baseState
    { first_name := some "Mallory", last_name := some "Marsh",
      email := some "mallory@example.com", password := some "pw123",
      is_admin := some true }
    "Mallory" "Marsh" "mallory@example.com" "pw123"
    rfl (by decide) (by decide) rfl (by decide) (by decide) rfl (by decide)
    (by decide) rfl rfl (by decide)
  constructor
  · rw [h1]
    simp only [Except.toOption, Option.map]
    rw [h2]
  · rw [h3]

/-- C10: a `BaseModel.update` whose dict keys name no existing attribute of
the entity succeeds, silently ignores every key (nothing is stored, not
even in the instance dictionary), and changes no field except `updated_at`,
which `save()` refreshes. -/
theorem update_unknown_keys_ignored (now : Nat) (u : User) (data : PyDict)
    (h : ∀ kv ∈ data, userHasAttr kv.1 = false) :
    User.update now u data = ({ u with updated_at := now }, none) := by
  induction data with
  | nil => rfl
  | cons kv rest ih =>
    obtain ⟨k, v⟩ := kv
    have hk : userHasAttr k = false := h (k, v) (List.mem_cons_self _ _)
    simp only [User.update, hk, Bool.false_eq_true, if_false]
    exact ih (fun kv2 hm => h kv2 (List.mem_cons_of_mem _ hm))

/-- Witness for `update_unknown_keys_ignored`: two unknown keys on Alice. -/
theorem update_unknown_keys_ignored_witness :
    User.update 9 aliceU
        [("nickname", PyVal.str "Al"), ("favorite_color", PyVal.str "blue")] =
      ({ aliceU with updated_at := 9 }, none) :=
  update_unknown_keys_ignored 9 aliceU
    [("nickname", PyVal.str "Al"), ("favorite_color", PyVal.str "blue")] (by decide)
